import Mathlib

/-!
Verification of the tailstream-client interactive log viewer
(`interactive.go`, function `runInteractiveMode` and its helpers, plus
`time.go`, function `parseTimeArg`).

The Go viewer is a single long-lived mutable state (the locals of
`runInteractiveMode`) driven by keyboard events; network fetches run as
background goroutines whose completions mutate the same state.  We embed it
as an explicit state type `ViewerState` together with:

  * `keyStep`     — one keyboard event (one iteration of the input loop);
  * `completeStep`— completion of one in-flight background fetch, with the
                    network response as an explicit parameter (the fetch
                    collaborator of the spec is external and unconstrained);
  * `fireClear`   — one delayed status-clearing task firing;
  * `renderStep`  — the only state mutation performed by `renderScreen`
                    (the per-entry clamp-and-writeback of the vertical
                    scroll offset of an expanded entry).

Go maps (`expanded`, `expandedScrollOffset`, `horizontalScrollOffset`) are
embedded as association lists with Go's read-default-on-missing-key
semantics.  Go `int` is embedded as `Int` (no overflow is reachable here;
all arithmetic stays tiny).  Entry documents are opaque to the viewer, so
they are embedded as bare naturals.

Quantities the Go code obtains from the terminal or from rendering an
entry (viewport height, terminal width, the rendered length of a line, the
number of lines of the pretty-printed JSON of an entry) are passed to each
step as an environment `KeyEnv`; the Go code guarantees the bounds recorded
in `EnvOk` (`viewportHeight` is clamped to `≥ 1`, `strings.Split` returns
at least one line, lengths are nonnegative).
-/

/-- Log entry documents are opaque to the viewer (`map[string]any` in Go);
only their identity and order matter to the claims, so we embed them as
naturals. -/
abbrev Entry := Nat

/-! ### Association lists with Go map semantics -/

/-- Go map read `m[k]` with default value `d` for a missing key. -/
def mget {β : Type} (d : β) : List (Int × β) → Int → β
  | [], _ => d
  | p :: rest, k => if p.1 = k then p.2 else mget d rest k

/-- Go comma-ok map membership test `_, ok := m[k]`. -/
def mmem {β : Type} : List (Int × β) → Int → Bool
  | [], _ => false
  | p :: rest, k => if p.1 = k then true else mmem rest k

/-- Go `delete(m, k)`. -/
def mdel {β : Type} (m : List (Int × β)) (k : Int) : List (Int × β) :=
  m.filter (fun p => p.1 != k)

/-- Go map write `m[k] = v`. -/
def mset {β : Type} (m : List (Int × β)) (k : Int) (v : β) : List (Int × β) :=
  (k, v) :: mdel m k

/-! ### Requests in flight and their results -/

/-- A background fetch that has been launched but has not completed yet:
the goroutines spawned by `performSearch`, `loadNextPage` (search and
browse branches) and `reloadWithDateFilter`. -/
inductive PendingFetch : Type
  | searchFirst (query : String)
  | searchMore (cursor query : String)
  | browseMore (cursor : String)
  | reloadReq (startSpec endSpec : String)
deriving Repr, DecidableEq

/-- Result of the fetch collaborator
`fetcher(cursor, query) -> (entries, hasMore, total, nextCursor, error)`. -/
inductive FetchResult : Type
  | err (msg : String)
  | ok (entries : List Entry) (hasMore : Bool) (total : Option Int) (cursor : String)
deriving Repr, DecidableEq

/-- Outcome of the goroutine body of `reloadWithDateFilter`: each early
`return` on a failed step, or the decoded payload on success.  (`nextCursor`
is `Meta.NextCursor *string`, hence an `Option`.) -/
inductive ReloadResult : Type
  | invalidStart (msg : String)
  | failedStart (msg : String)
  | invalidEnd (msg : String)
  | failedEnd (msg : String)
  | requestError (msg : String)
  | httpError (st : String)
  | decodeError (msg : String)
  | success (data : List Entry) (hasMore : Bool) (total : Option Int)
      (nextCursor : Option String)
deriving Repr, DecidableEq

/-- The data a completing background task carries back. -/
inductive Completion : Type
  | fetch (r : FetchResult)
  | reload (r : ReloadResult)
deriving Repr, DecidableEq

/-! ### The viewer state -/

/-- The mutable locals of `runInteractiveMode`, plus bookkeeping for
in-flight fetches (`pending`) and scheduled status-clearing tasks
(`pendingClears`; each element records the status message that was current
when the task was scheduled — the Go closures capture nothing, the recorded
message is ghost data used only to state claims about the tasks). -/
structure ViewerState : Type where
  allEntries : List Entry
  currentIdx : Int
  expanded : List (Int × Bool)
  expandedScrollOffset : List (Int × Int)
  horizontalScrollOffset : List (Int × Int)
  loading : Bool
  status : String
  searchQuery : String
  searchMatches : List Int
  searchActive : Bool
  searchCursor : String
  searchHasMore : Bool
  searchTotal : Option Int
  activeStartTime : String
  activeEndTime : String
  currentCursor : String
  hasNextPage : Bool
  totalAvailable : Option Int
  pending : List PendingFetch
  pendingClears : List String
deriving Repr, DecidableEq

/-- The state `runInteractiveMode` builds from its arguments before the
input loop starts (the function returns immediately when `entries` is
empty, so initial states have a non-empty sequence). -/
def initState (entries : List Entry) (hasMore : Bool) (totalCount : Option Int)
    (nextCursor : String) : ViewerState :=
  { allEntries := entries
    currentIdx := 0
    expanded := []
    expandedScrollOffset := []
    horizontalScrollOffset := []
    loading := false
    status := ""
    searchQuery := ""
    searchMatches := []
    searchActive := false
    searchCursor := ""
    searchHasMore := false
    searchTotal := none
    activeStartTime := ""
    activeEndTime := ""
    currentCursor := nextCursor
    hasNextPage := hasMore
    totalAvailable := totalCount
    pending := []
    pendingClears := [] }

/-- ASCII single-quote character, used by the Go status strings. -/
def quoteChar : String := String.singleton (Char.ofNat 39)

/-- Whitespace as recognized by Go's `unicode.IsSpace` (the characters Go
`strings.TrimSpace` trims): `\t \n \v \f \r`, space, NEL, NBSP, and the
Unicode space separators. -/
def isGoSpace (c : Char) : Bool :=
  c.toNat = 0x09 ∨ c.toNat = 0x0A ∨ c.toNat = 0x0B ∨ c.toNat = 0x0C ∨
  c.toNat = 0x0D ∨ c.toNat = 0x20 ∨ c.toNat = 0x85 ∨ c.toNat = 0xA0 ∨
  c.toNat = 0x1680 ∨ (0x2000 ≤ c.toNat ∧ c.toNat ≤ 0x200A) ∨
  c.toNat = 0x2028 ∨ c.toNat = 0x2029 ∨ c.toNat = 0x202F ∨
  c.toNat = 0x205F ∨ c.toNat = 0x3000

/-- Go `strings.TrimSpace`: drop leading and trailing whitespace. -/
def goTrimSpace (v : String) : String :=
  String.mk (((v.data.dropWhile isGoSpace).reverse.dropWhile isGoSpace).reverse)

/-! ### Operations launched or performed synchronously by the input loop -/

/-- `performSearch(query)` (interactive.go:346-406).  An empty query clears
the search synchronously; a non-empty query switches to search mode, resets
the selection and launches a background first-page fetch. -/
def performSearch (query : String) (s : ViewerState) : ViewerState :=
  if query = "" then
    { s with searchQuery := ""
             searchActive := false
             searchMatches := []
             currentIdx := 0
             status := "Search cleared - back to normal mode" }
  else
    { s with searchQuery := query
             searchActive := true
             searchCursor := ""
             currentIdx := 0
             loading := true
             status := "Searching for " ++ quoteChar ++ query ++ quoteChar ++ "..."
             pending := s.pending ++ [PendingFetch.searchFirst query] }

/-- `loadNextPage()` (interactive.go:601-674): launch a next-page fetch for
the governing stream unless one is already in flight, there is nothing
more, or the cursor is empty. -/
def loadNextPage (s : ViewerState) : ViewerState :=
  if s.searchActive = true then
    if s.loading = true ∨ s.searchHasMore = false ∨ s.searchCursor = "" then s
    else
      { s with loading := true
               status := "Loading more search results..."
               pending := s.pending ++ [PendingFetch.searchMore s.searchCursor s.searchQuery] }
  else
    if s.loading = true ∨ s.hasNextPage = false ∨ s.currentCursor = "" then s
    else
      { s with loading := true
               status := "Loading more..."
               pending := s.pending ++ [PendingFetch.browseMore s.currentCursor] }

/-- `reloadWithDateFilter(start, end)` (interactive.go:222-343), the part
executed synchronously: set the loading flag and launch the goroutine. -/
def reloadWithDateFilter (startSpec endSpec : String) (s : ViewerState) : ViewerState :=
  { s with loading := true
           status := "Loading logs with date filter..."
           pending := s.pending ++ [PendingFetch.reloadReq startSpec endSpec] }

/-! ### Completions of background fetches -/

/-- Completion of the goroutine launched by `performSearch`
(interactive.go:367-405). -/
def applySearchFirst (query : String) (r : FetchResult) (s : ViewerState) : ViewerState :=
  match r with
  | FetchResult.err msg =>
      { s with status := "Search error: " ++ msg, loading := false }
  | FetchResult.ok results hasMore total cursor =>
    let s1 := { s with allEntries := results
                       searchHasMore := hasMore
                       searchTotal := total
                       searchCursor := cursor
                       loading := false }
    if results.length > 0 then
      let moreMsg := if hasMore = true then " - scroll down to load more" else ""
      let totalMsg :=
        match total with
        | some t =>
            if t > 0 then toString results.length ++ " of " ++ toString t
            else if hasMore = true then toString results.length ++ "+"
            else toString results.length
        | none =>
            if hasMore = true then toString results.length ++ "+"
            else toString results.length
      { s1 with searchMatches := (List.range results.length).map (fun i => (i : Int))
                status := "Found " ++ totalMsg ++ " results" ++ moreMsg ++ " - Esc to clear" }
    else
      { s1 with searchMatches := []
                status := "No matches for " ++ quoteChar ++ query ++ quoteChar ++ " (Esc: clear)" }

/-- Completion of the search-pagination goroutine of `loadNextPage`
(interactive.go:611-640).  Both outcomes schedule a delayed status clear. -/
def applySearchMore (r : FetchResult) (s : ViewerState) : ViewerState :=
  let s1 :=
    match r with
    | FetchResult.err msg => { s with status := "Error loading: " ++ msg }
    | FetchResult.ok newEntries more total cursor =>
      let startIdx := s.searchMatches.length
      { s with allEntries := s.allEntries ++ newEntries
               searchHasMore := more
               searchTotal := total
               searchCursor := cursor
               searchMatches := s.searchMatches ++
                 (List.range newEntries.length).map (fun i => ((startIdx + i : Nat) : Int))
               status := "Loaded " ++ toString newEntries.length ++ " more results" ++
                 (match total with
                  | some t => " (" ++ toString t ++ " total)"
                  | none => "") }
  { s1 with loading := false, pendingClears := s1.pendingClears ++ [s1.status] }

/-- Completion of the browse-pagination goroutine of `loadNextPage`
(interactive.go:653-674).  Both outcomes schedule a delayed status clear. -/
def applyBrowseMore (r : FetchResult) (s : ViewerState) : ViewerState :=
  let s1 :=
    match r with
    | FetchResult.err msg => { s with status := "Error loading: " ++ msg }
    | FetchResult.ok newEntries more total cursor =>
      { s with allEntries := s.allEntries ++ newEntries
               hasNextPage := more
               totalAvailable := total
               currentCursor := cursor
               status := "Loaded " ++ toString newEntries.length ++ " new entries" }
  { s1 with loading := false, pendingClears := s1.pendingClears ++ [s1.status] }

/-- Completion of the goroutine of `reloadWithDateFilter`
(interactive.go:227-342): every failing step returns early leaving the
viewer state untouched apart from the status line and the loading flag;
success wholesale-replaces the sequence and pagination, resets the
selection, clears `expanded` and `expandedScrollOffset` (but not
`horizontalScrollOffset`), deactivates the search, and schedules a delayed
status clear. -/
def applyReload (startSpec endSpec : String) (r : ReloadResult) (s : ViewerState) :
    ViewerState :=
  match r with
  | ReloadResult.invalidStart msg =>
      { s with status := "Invalid start time: " ++ msg, loading := false }
  | ReloadResult.failedStart msg =>
      { s with status := "Failed to parse start time: " ++ msg, loading := false }
  | ReloadResult.invalidEnd msg =>
      { s with status := "Invalid end time: " ++ msg, loading := false }
  | ReloadResult.failedEnd msg =>
      { s with status := "Failed to parse end time: " ++ msg, loading := false }
  | ReloadResult.requestError msg =>
      { s with status := "Request error: " ++ msg, loading := false }
  | ReloadResult.httpError st =>
      { s with status := "Request failed: " ++ st, loading := false }
  | ReloadResult.decodeError msg =>
      { s with status := "Parse error: " ++ msg, loading := false }
  | ReloadResult.success data hasMore total nextCursor =>
    let s1 := { s with
      allEntries := data
      hasNextPage := hasMore
      totalAvailable := total
      currentCursor := match nextCursor with | some c => c | none => ""
      currentIdx := 0
      expanded := []
      expandedScrollOffset := []
      searchActive := false
      searchQuery := ""
      activeStartTime := startSpec
      activeEndTime := endSpec
      loading := false
      status :=
        if data.length = 0 then "No logs found for the specified date range"
        else "Loaded " ++ toString data.length ++ " entries" ++
          (if startSpec ≠ "" ∨ endSpec ≠ "" then " (filtered)" else "") }
    { s1 with pendingClears := s1.pendingClears ++ [s1.status] }

/-- Completion of the `i`-th in-flight background fetch with response `c`.
A mismatched response kind is a no-op (no real trace produces one). -/
def completeStep (i : Nat) (c : Completion) (s : ViewerState) : ViewerState :=
  match s.pending.get? i, c with
  | some (PendingFetch.searchFirst q), Completion.fetch r =>
      applySearchFirst q r { s with pending := s.pending.eraseIdx i }
  | some (PendingFetch.searchMore _ _), Completion.fetch r =>
      applySearchMore r { s with pending := s.pending.eraseIdx i }
  | some (PendingFetch.browseMore _), Completion.fetch r =>
      applyBrowseMore r { s with pending := s.pending.eraseIdx i }
  | some (PendingFetch.reloadReq a b), Completion.reload r =>
      applyReload a b r { s with pending := s.pending.eraseIdx i }
  | _, _ => s

/-- One delayed status-clearing task firing (interactive.go:336-341,
634-639, 667-672): after its sleep it blanks the status unconditionally —
the Go closure captures nothing and performs no comparison. -/
def fireClear (i : Nat) (s : ViewerState) : ViewerState :=
  if i < s.pendingClears.length then
    { s with status := "", pendingClears := s.pendingClears.eraseIdx i }
  else s

/-- The only state mutation inside `renderScreen` (interactive.go:516-523):
for an expanded entry `i` in the viewport, the vertical scroll offset is
clamped into `[0, jsonLineCount - 1]` and written back (inserting the key
when absent).  `jsonLineCount ≥ 1` is the number of lines of the
pretty-printed JSON of the entry, an external quantity. -/
def renderStep (i : Int) (jsonLineCount : Int) (s : ViewerState) : ViewerState :=
  if mget false s.expanded i = true then
    let off0 := mget 0 s.expandedScrollOffset i
    let off1 := if off0 < 0 then 0 else off0
    let off2 := if off1 ≥ jsonLineCount then jsonLineCount - 1 else off1
    { s with expandedScrollOffset := mset s.expandedScrollOffset i off2 }
  else s

/-! ### Keyboard events -/

/-- Quantities the input-loop iteration reads from the environment:
`viewportHeight` (recomputed from the terminal height and clamped to
`≥ 1`), the terminal width, and — for the current entry — the rendered
line length and the pretty-printed JSON line count used by the
horizontal-scroll and expanded-scroll branches. -/
structure KeyEnv : Type where
  height : Int
  termWidth : Int
  lineLen : Int
  jsonLineCount : Int
deriving Repr, DecidableEq

/-- Bounds on `KeyEnv` guaranteed by the Go code: the viewport height is
clamped to at least 1, `strings.Split` yields at least one line, and
lengths are nonnegative. -/
def EnvOk (e : KeyEnv) : Prop :=
  1 ≤ e.height ∧ 0 ≤ e.termWidth ∧ 0 ≤ e.lineLen ∧ 1 ≤ e.jsonLineCount

instance (e : KeyEnv) : Decidable (EnvOk e) := by
  unfold EnvOk; infer_instance

/-- The decoded key events of the input loop (interactive.go:696-975).
`slashSubmit` is the `/` prompt followed by submitting `query`;
`dateFilter` is the `f` prompt followed by the two (raw) line inputs. -/
inductive Key : Type
  | escape
  | slashSubmit (query : String)
  | dateFilter (startRaw endRaw : String)
  | nextMatch
  | prevMatch
  | down
  | up
  | right
  | left
  | pageDown
  | pageUp
  | gotoTop
  | gotoBottom
  | toggle
deriving Repr, DecidableEq

/-- The key-driven navigation actions named by the spec: j/k and the
vertical arrows (`down`/`up`), the horizontal arrows, d/u and
PageDown/PageUp, g/G and Home/End (`gotoTop`/`gotoBottom`), n/N. -/
def Key.isNav : Key → Bool
  | Key.nextMatch | Key.prevMatch | Key.down | Key.up | Key.right | Key.left
  | Key.pageDown | Key.pageUp | Key.gotoTop | Key.gotoBottom => true
  | _ => false

/-- Selection moving down one entry (shared by the two `j`/down-arrow
branches, interactive.go:773-785 and 788-804): ensure a horizontal offset
for the new row, drop the old row's, and auto-load when within 5 of the
end (note: gated on the browse `hasNextPage` flag in both modes). -/
def moveDown (s : ViewerState) : ViewerState :=
  let oldIdx := s.currentIdx
  let newIdx := s.currentIdx + 1
  let h1 := if mmem s.horizontalScrollOffset newIdx = true then s.horizontalScrollOffset
            else mset s.horizontalScrollOffset newIdx 0
  let s1 := { s with currentIdx := newIdx, horizontalScrollOffset := mdel h1 oldIdx }
  if newIdx ≥ (s1.allEntries.length : Int) - 5 ∧ s1.hasNextPage = true ∧ s1.loading = false
  then loadNextPage s1 else s1

/-- Selection moving up one entry (shared by the two `k`/up-arrow branches,
interactive.go:814-823 and 826-836). -/
def moveUp (s : ViewerState) : ViewerState :=
  let oldIdx := s.currentIdx
  let newIdx := s.currentIdx - 1
  let h1 := if mmem s.horizontalScrollOffset newIdx = true then s.horizontalScrollOffset
            else mset s.horizontalScrollOffset newIdx 0
  { s with currentIdx := newIdx, horizontalScrollOffset := mdel h1 oldIdx }

/-- One iteration of the input loop of `runInteractiveMode`
(interactive.go:687-976) on a decoded key event. -/
def keyStep (e : KeyEnv) (k : Key) (s : ViewerState) : ViewerState :=
  match k with
  | Key.escape =>
      if s.searchQuery ≠ "" then performSearch "" s else s
  | Key.slashSubmit query => performSearch query s
  | Key.dateFilter startRaw endRaw =>
      reloadWithDateFilter (goTrimSpace startRaw) (goTrimSpace endRaw) s
  | Key.nextMatch =>
      if s.searchQuery ≠ "" ∧ s.currentIdx < (s.allEntries.length : Int) - 1 then
        { s with currentIdx := s.currentIdx + 1 }
      else s
  | Key.prevMatch =>
      if s.searchQuery ≠ "" ∧ s.currentIdx > 0 then
        { s with currentIdx := s.currentIdx - 1 }
      else s
  | Key.down =>
      if mget false s.expanded s.currentIdx = true then
        if mget 0 s.expandedScrollOffset s.currentIdx < e.jsonLineCount - 1 then
          let v := mset s.expandedScrollOffset s.currentIdx
            (mget 0 s.expandedScrollOffset s.currentIdx + 1)
          { s with expandedScrollOffset := v }
        else if s.currentIdx < (s.allEntries.length : Int) - 1 then moveDown s
        else s
      else
        if s.currentIdx < (s.allEntries.length : Int) - 1 then moveDown s else s
  | Key.up =>
      if mget false s.expanded s.currentIdx = true then
        if mget 0 s.expandedScrollOffset s.currentIdx > 0 then
          let v := mset s.expandedScrollOffset s.currentIdx
            (mget 0 s.expandedScrollOffset s.currentIdx - 1)
          { s with expandedScrollOffset := v }
        else if s.currentIdx > 0 then moveUp s
        else s
      else
        if s.currentIdx > 0 then moveUp s else s
  | Key.right =>
      let maxOffset0 := e.lineLen - e.termWidth
      let maxOffset := if maxOffset0 < 0 then 0 else maxOffset0
      let newOffset0 := mget 0 s.horizontalScrollOffset s.currentIdx + 10
      let newOffset := if newOffset0 > maxOffset then maxOffset else newOffset0
      let v := mset s.horizontalScrollOffset s.currentIdx newOffset
      { s with horizontalScrollOffset := v }
  | Key.left =>
      let v0 := mget 0 s.horizontalScrollOffset s.currentIdx - 10
      let v1 := if v0 < 0 then 0 else v0
      let v := mset s.horizontalScrollOffset s.currentIdx v1
      { s with horizontalScrollOffset := v }
  | Key.pageDown =>
      let len := (s.allEntries.length : Int)
      let n0 := s.currentIdx + e.height
      let newIdx := if n0 ≥ len then len - 1 else n0
      if newIdx ≠ s.currentIdx then
        let s1 := { s with currentIdx := newIdx }
        if s1.searchActive = true then
          if newIdx ≥ len - e.height ∧ s1.searchHasMore = true ∧ s1.loading = false
          then loadNextPage s1 else s1
        else
          if newIdx ≥ len - e.height ∧ s1.hasNextPage = true ∧ s1.loading = false
          then loadNextPage s1 else s1
      else s
  | Key.pageUp =>
      let n0 := s.currentIdx - e.height
      let newIdx := if n0 < 0 then 0 else n0
      if newIdx ≠ s.currentIdx then { s with currentIdx := newIdx } else s
  | Key.gotoTop => { s with currentIdx := 0 }
  | Key.gotoBottom => { s with currentIdx := (s.allEntries.length : Int) - 1 }
  | Key.toggle =>
      let nowExpanded := ! mget false s.expanded s.currentIdx
      let s1 := { s with expanded := mset s.expanded s.currentIdx nowExpanded }
      if nowExpanded = false then
        { s1 with expandedScrollOffset := mdel s1.expandedScrollOffset s.currentIdx }
      else
        { s1 with expandedScrollOffset := mset s1.expandedScrollOffset s.currentIdx 0 }

/-! ### Reachability -/

/-- States the viewer can be in: an initial state (non-empty first page;
`runInteractiveMode` returns at once otherwise), or any state reached from
one by a key event, the completion of an in-flight fetch (with an
arbitrary response from the external collaborator), a delayed
status-clearing task firing, or a render pass touching one expanded
entry. -/
inductive Reachable : ViewerState → Prop
  | init (entries : List Entry) (hasMore : Bool) (totalCount : Option Int)
      (nextCursor : String) (hne : entries ≠ []) :
      Reachable (initState entries hasMore totalCount nextCursor)
  | key {s : ViewerState} (e : KeyEnv) (k : Key) (he : EnvOk e) :
      Reachable s → Reachable (keyStep e k s)
  | complete {s : ViewerState} (i : Nat) (c : Completion) :
      Reachable s → Reachable (completeStep i c s)
  | clearTask {s : ViewerState} (i : Nat) :
      Reachable s → Reachable (fireClear i s)
  | render {s : ViewerState} (i : Int) (jsonLineCount : Int)
      (hj : 1 ≤ jsonLineCount) :
      Reachable s → Reachable (renderStep i jsonLineCount s)

/-! ### The viewport window (renderScreen, interactive.go:483-496) -/

/-- The `(viewportStart, viewportEnd)` window computed by `renderScreen`:
center the selection, clamp the start at 0, clamp the end at the sequence
length and re-clamp the start.  (`viewportHeight ≥ 1` after the clamp at
interactive.go:419-422; the division is on nonnegative operands, where Go
truncation and `Int` division agree.) -/
def viewportWindow (currentIdx viewportHeight len : Int) : Int × Int :=
  let vs0 := currentIdx - viewportHeight / 2
  let vs1 := if vs0 < 0 then 0 else vs0
  let ve0 := vs1 + viewportHeight
  if ve0 > len then
    let ve1 := len
    let vs2 := ve1 - viewportHeight
    let vs3 := if vs2 < 0 then 0 else vs2
    (vs3, ve1)
  else (vs1, ve0)

/-! ### The time-spec resolver (time.go:28-56)

`parseTimeArg` delegates to the Go standard library for duration and
layout parsing and for formatting; those library functions are external
collaborators here, abstracted as the fields of `TimeLib` (a parser
returns `none` exactly when the Go call returns a non-nil error; instants
are abstract). -/

/-- Abstract Go `time` standard library:
`parseDuration` is `time.ParseDuration`, `parseInLocation layout value`
is `time.ParseInLocation(layout, value, time.Local)`, `parseRFC3339` is
`time.Parse(time.RFC3339, value)`, `formatRFC3339 t` is
`t.UTC().Format(time.RFC3339)`, `nowRFC3339` is that format of
`time.Now()`, `addToNow d` is `time.Now().Add(d)`, and `unixMilli t` is
`t.UnixMilli()`. -/
structure TimeLib : Type where
  parseDuration : String → Option Int
  parseInLocation : String → String → Option Int
  parseRFC3339 : String → Option Int
  formatRFC3339 : Int → String
  nowRFC3339 : String
  addToNow : Int → Int
  unixMilli : Int → Int

/-- ASCII lower-casing of one character (the case folding relevant to the
keyword `"now"`). -/
def foldChar (c : Char) : Char :=
  if 65 ≤ c.toNat ∧ c.toNat ≤ 90 then Char.ofNat (c.toNat + 32) else c

/-- Go `strings.EqualFold` restricted to how `parseTimeArg` uses it
(comparison against the ASCII keyword `"now"`): case-insensitive
equality via simple folding. -/
def goEqualFold (a b : String) : Bool := a.data.map foldChar == b.data.map foldChar

/-- Go `strings.HasPrefix(value, "-")`: the string starts with a minus. -/
def startsWithMinus (s : String) : Bool :=
  match s.data with
  | [] => false
  | c :: _ => c = Char.ofNat 45

/-- The candidate layouts tried by `parseTimeArg`, in order
(`time.RFC3339` spelled out as its Go constant). -/
def goLayouts : List String :=
  ["2006-01-02T15:04:05Z07:00", "2006-01-02 15:04:05", "2006-01-02 15:04", "2006-01-02"]

/-- `parseTimeArg` (time.go:28-56): trim; empty maps to empty with no
error; `"now"` (case-insensitive) maps to the formatted current time; a
leading `-` must parse as a relative duration; otherwise the four layouts
are tried in order and the first success is formatted; anything else is an
error. -/
def parseTimeArg (lib : TimeLib) (value0 : String) : Except String String :=
  let value := goTrimSpace value0
  if value = "" then Except.ok ""
  else if goEqualFold value "now" = true then Except.ok lib.nowRFC3339
  else if startsWithMinus value = true then
    match lib.parseDuration value with
    | none => Except.error ("invalid relative duration " ++ quoteChar ++ value ++ quoteChar)
    | some dur => Except.ok (lib.formatRFC3339 (lib.addToNow dur))
  else
    match goLayouts.findSome? (fun layout => lib.parseInLocation layout value) with
    | some t => Except.ok (lib.formatRFC3339 t)
    | none => Except.error ("could not parse time value " ++ quoteChar ++ value ++ quoteChar)

/-- The date-filter query construction at the head of the
`reloadWithDateFilter` goroutine (interactive.go:234-269): each non-empty
field is resolved by `parseTimeArg`, re-parsed as RFC3339, and converted
to a millisecond bound; an empty field contributes no bound; the first
failure aborts the reload. -/
def buildDateFilterQuery (lib : TimeLib) (startSpec endSpec : String) :
    Except String (Option Int × Option Int) :=
  match
    (if startSpec = "" then Except.ok none
     else
       match parseTimeArg lib startSpec with
       | Except.error e => Except.error ("Invalid start time: " ++ e)
       | Except.ok parsed =>
         match lib.parseRFC3339 parsed with
         | none => Except.error "Failed to parse start time"
         | some t => Except.ok (some (lib.unixMilli t))) with
  | Except.error e => Except.error e
  | Except.ok startParam =>
    match
      (if endSpec = "" then Except.ok none
       else
         match parseTimeArg lib endSpec with
         | Except.error e => Except.error ("Invalid end time: " ++ e)
         | Except.ok parsed =>
           match lib.parseRFC3339 parsed with
           | none => Except.error "Failed to parse end time"
           | some t => Except.ok (some (lib.unixMilli t))) with
    | Except.error e => Except.error e
    | Except.ok endParam => Except.ok (startParam, endParam)

/-! ### Concrete environments and traces used by counterexamples and
witnesses below -/

/-- A terminal environment: viewport height 5. -/
def envH5 : KeyEnv := { height := 5, termWidth := 80, lineLen := 0, jsonLineCount := 1 }

/-- A terminal environment: viewport height 20. -/
def envH20 : KeyEnv := { height := 20, termWidth := 80, lineLen := 0, jsonLineCount := 1 }

/-- C1 trace: one loaded entry, more available. -/
def c1s0 : ViewerState := initState [0] true none "c0"

/-- C1 trace: submit search query "z". -/
def c1s1 : ViewerState := keyStep envH5 (Key.slashSubmit "z") c1s0

/-- C1 trace: the search returns no matches (sequence becomes empty). -/
def c1s2 : ViewerState :=
  completeStep 0 (Completion.fetch (FetchResult.ok [] false none "")) c1s1

/-- C1 trace: Escape clears the search; the empty result list stays
displayed while the browse pagination state is still live. -/
def c1s3 : ViewerState := keyStep envH5 Key.escape c1s2

/-- C1 trace: PageDown on the empty sequence sets the selection to -1 and
auto-triggers a browse fetch. -/
def c1s4 : ViewerState := keyStep envH5 Key.pageDown c1s3

/-- C1 trace: the browse fetch appends two entries; the selection is left
at -1. -/
def c1s5 : ViewerState :=
  completeStep 0 (Completion.fetch (FetchResult.ok [1, 2] false none "")) c1s4

/-- C1 trace: the navigation key k leaves the out-of-bounds selection in
place (its guard `currentIdx > 0` fails). -/
def c1s6 : ViewerState := keyStep envH5 Key.up c1s5

/-- C4 trace: forty loaded entries, more available. -/
def c4s0 : ViewerState := initState (List.range 40) true none "c"

/-- C4 trace: three j presses, selection at 3. -/
def c4s3 : ViewerState :=
  keyStep envH20 Key.down (keyStep envH20 Key.down (keyStep envH20 Key.down c4s0))

/-- C4 trace: d (page down, viewport 20) moves the selection to 23 — not
within 5 of the end of the 40 loaded entries — yet issues a fetch. -/
def c4s4 : ViewerState := keyStep envH20 Key.pageDown c4s3

/-- C5 trace: two loaded entries, nothing more. -/
def c5s0 : ViewerState := initState [10, 20] false none ""

/-- C5 trace: j moves the selection to 1, inserting a horizontal-scroll
entry for index 1. -/
def c5s1 : ViewerState := keyStep envH5 Key.down c5s0

/-- C5 trace: f submits the date filter (start "-1h", end blank). -/
def c5s2 : ViewerState := keyStep envH5 (Key.dateFilter "-1h" "") c5s1

/-- C5 trace: the reload succeeds and replaces the sequence — the
horizontal-scroll map survives. -/
def c5s3 : ViewerState :=
  completeStep 0 (Completion.reload (ReloadResult.success [30] true none (some "nc"))) c5s2

/-- C7 counterexample state: after one j press, index 1 is collapsed yet
present in the horizontal scroll map. -/
def c7s1 : ViewerState := keyStep envH5 Key.down (initState [0, 1] false none "")

/-- C7 witness state: toggling the first entry expands it and seeds its
vertical scroll offset. -/
def c7sT : ViewerState := keyStep envH5 Key.toggle (initState [0] false none "")

/-- C8 trace: two loaded entries, more available. -/
def c8s0 : ViewerState := initState [0, 1] true none "c"

/-- C8 trace: j reaches the trailing window and triggers a browse fetch. -/
def c8s1 : ViewerState := keyStep envH5 Key.down c8s0

/-- C8 trace: the fetch appends one entry, sets the "Loaded 1 new entries"
status and schedules a delayed clear for it. -/
def c8s2 : ViewerState :=
  completeStep 0 (Completion.fetch (FetchResult.ok [2] false none "")) c8s1

/-- C8 trace: before the timer fires, a new search sets a newer status. -/
def c8s3 : ViewerState := keyStep envH5 (Key.slashSubmit "q") c8s2

/-- C8 trace: the delayed clear fires and blanks the newer status. -/
def c8s4 : ViewerState := fireClear 0 c8s3

/-- C9 witness state: a search for "q" is active. -/
def c9sW : ViewerState := performSearch "q" (initState [5] false none "")

/-- A concrete instance of the abstract Go time library in which every
parser fails (used only to instantiate universally quantified theorems). -/
def lib0 : TimeLib :=
  { parseDuration := fun _ => none
    parseInLocation := fun _ _ => none
    parseRFC3339 := fun _ => none
    formatRFC3339 := fun _ => ""
    nowRFC3339 := ""
    addToNow := fun d => d
    unixMilli := fun t => t }

/-- The selection invariant of the spec: when the sequence is non-empty
the selection is a valid index. -/
def selectionOk (s : ViewerState) : Prop :=
  s.allEntries ≠ [] → 0 ≤ s.currentIdx ∧ s.currentIdx < (s.allEntries.length : Int)

/-- The strong form used for preservation: a valid selection into a
non-empty sequence. -/
def selectionIn (s : ViewerState) : Prop :=
  0 ≤ s.currentIdx ∧ s.currentIdx < (s.allEntries.length : Int)

/-- The view-state invariant claimed by the spec, restricted to the
vertical map: every index with a vertical scroll offset is expanded. -/
def vScrollInv (s : ViewerState) : Prop :=
  ∀ i : Int, mmem s.expandedScrollOffset i = true → mget false s.expanded i = true

/-- All the viewer state the failure branches must leave untouched: the
entry sequence, selection, per-entry view state, search bookkeeping,
date-filter bookkeeping, and browse pagination. -/
def retainsViewerState (s t : ViewerState) : Prop :=
  t.allEntries = s.allEntries ∧ t.currentIdx = s.currentIdx ∧
  t.expanded = s.expanded ∧ t.expandedScrollOffset = s.expandedScrollOffset ∧
  t.horizontalScrollOffset = s.horizontalScrollOffset ∧
  t.searchQuery = s.searchQuery ∧ t.searchMatches = s.searchMatches ∧
  t.searchActive = s.searchActive ∧ t.searchCursor = s.searchCursor ∧
  t.searchHasMore = s.searchHasMore ∧ t.searchTotal = s.searchTotal ∧
  t.activeStartTime = s.activeStartTime ∧ t.activeEndTime = s.activeEndTime ∧
  t.currentCursor = s.currentCursor ∧ t.hasNextPage = s.hasNextPage ∧
  t.totalAvailable = s.totalAvailable

/-! ## Lemmas about the Go-map embedding -/

theorem mget_mdel_ne {β : Type} (d : β) (m : List (Int × β)) (k j : Int) (h : j ≠ k) :
    mget d (mdel m k) j = mget d m j := by
  induction m with
  | nil => rfl
  | cons p rest ih =>
    simp only [mdel, List.filter_cons] at *
    by_cases hp : p.1 = k
    · have hb : (p.1 != k) = false := by simp [hp]
      rw [hb]
      simp only [Bool.false_eq_true, if_false]
      rw [ih]
      simp only [mget, hp]
      rw [if_neg (by omega : ¬ k = j)]
    · have hb : (p.1 != k) = true := by simp [hp]
      rw [hb]
      simp only [if_true]
      by_cases hj : p.1 = j
      · simp [mget, hj]
      · simp only [mget, if_neg hj]
        exact ih

theorem mget_mset_self {β : Type} (d : β) (m : List (Int × β)) (k : Int) (v : β) :
    mget d (mset m k v) k = v := by
  simp [mset, mget]

theorem mget_mset_ne {β : Type} (d : β) (m : List (Int × β)) (k j : Int) (v : β)
    (h : j ≠ k) : mget d (mset m k v) j = mget d m j := by
  simp only [mset, mget]
  rw [if_neg (by omega : ¬ k = j)]
  exact mget_mdel_ne d m k j h

theorem mmem_mdel_self {β : Type} (m : List (Int × β)) (k : Int) :
    mmem (mdel m k) k = false := by
  induction m with
  | nil => rfl
  | cons p rest ih =>
    simp only [mdel, List.filter_cons] at *
    by_cases hp : p.1 = k
    · have hb : (p.1 != k) = false := by simp [hp]
      rw [hb]
      simpa using ih
    · have hb : (p.1 != k) = true := by simp [hp]
      rw [hb]
      simp only [if_true, mmem, if_neg hp]
      exact ih

theorem mmem_mdel_ne {β : Type} (m : List (Int × β)) (k j : Int) (h : j ≠ k) :
    mmem (mdel m k) j = mmem m j := by
  induction m with
  | nil => rfl
  | cons p rest ih =>
    simp only [mdel, List.filter_cons] at *
    by_cases hp : p.1 = k
    · have hb : (p.1 != k) = false := by simp [hp]
      rw [hb]
      simp only [Bool.false_eq_true, if_false]
      rw [ih]
      simp only [mmem, hp]
      rw [if_neg (by omega : ¬ k = j)]
    · have hb : (p.1 != k) = true := by simp [hp]
      rw [hb]
      simp only [if_true]
      by_cases hj : p.1 = j
      · simp [mmem, hj]
      · simp only [mmem, if_neg hj]
        exact ih

theorem mmem_mset_self {β : Type} (m : List (Int × β)) (k : Int) (v : β) :
    mmem (mset m k v) k = true := by
  simp [mset, mmem]

theorem mmem_mset_ne {β : Type} (m : List (Int × β)) (k j : Int) (v : β)
    (h : j ≠ k) : mmem (mset m k v) j = mmem m j := by
  simp only [mset, mmem]
  rw [if_neg (by omega : ¬ k = j)]
  exact mmem_mdel_ne m k j h

/-! ## Field-effect lemmas for the launch operations -/

theorem loadNextPage_allEntries (s : ViewerState) :
    (loadNextPage s).allEntries = s.allEntries := by
  unfold loadNextPage
  split <;> split <;> rfl

theorem loadNextPage_currentIdx (s : ViewerState) :
    (loadNextPage s).currentIdx = s.currentIdx := by
  unfold loadNextPage
  split <;> split <;> rfl

theorem loadNextPage_expanded (s : ViewerState) :
    (loadNextPage s).expanded = s.expanded := by
  unfold loadNextPage
  split <;> split <;> rfl

theorem loadNextPage_expandedScrollOffset (s : ViewerState) :
    (loadNextPage s).expandedScrollOffset = s.expandedScrollOffset := by
  unfold loadNextPage
  split <;> split <;> rfl

theorem loadNextPage_horizontalScrollOffset (s : ViewerState) :
    (loadNextPage s).horizontalScrollOffset = s.horizontalScrollOffset := by
  unfold loadNextPage
  split <;> split <;> rfl

theorem loadNextPage_of_loading (s : ViewerState) (h : s.loading = true) :
    loadNextPage s = s := by
  unfold loadNextPage
  split
  · rw [if_pos (Or.inl h)]
  · rw [if_pos (Or.inl h)]

theorem loadNextPage_issues_iff (s : ViewerState) :
    s.pending.length < (loadNextPage s).pending.length ↔
      (s.loading = false ∧
        ((s.searchActive = true ∧ s.searchHasMore = true ∧ s.searchCursor ≠ "") ∨
         (s.searchActive = false ∧ s.hasNextPage = true ∧ s.currentCursor ≠ ""))) := by
  unfold loadNextPage
  by_cases hsa : s.searchActive = true
  · rw [if_pos hsa]
    by_cases hg : s.loading = true ∨ s.searchHasMore = false ∨ s.searchCursor = ""
    · rw [if_pos hg]
      simp only [lt_self_iff_false, false_iff]
      rintro ⟨hl, hca | hcb⟩
      · rcases hg with h1 | h1 | h1 <;> simp_all
      · simp_all
    · rw [if_neg hg]
      push_neg at hg
      obtain ⟨h1, h2, h3⟩ := hg
      have h1 : s.loading = false := by simpa using h1
      have h2 : s.searchHasMore = true := by simpa using h2
      refine iff_of_true ?_ ?_
      · simp
      · exact ⟨h1, Or.inl ⟨hsa, h2, h3⟩⟩
  · rw [if_neg hsa]
    by_cases hg : s.loading = true ∨ s.hasNextPage = false ∨ s.currentCursor = ""
    · rw [if_pos hg]
      simp only [lt_self_iff_false, false_iff]
      rintro ⟨hl, hca | hcb⟩
      · simp_all
      · rcases hg with h1 | h1 | h1 <;> simp_all
    · rw [if_neg hg]
      push_neg at hg
      obtain ⟨h1, h2, h3⟩ := hg
      have h1 : s.loading = false := by simpa using h1
      have h2 : s.hasNextPage = true := by simpa using h2
      have hsa : s.searchActive = false := by simpa using hsa
      refine iff_of_true ?_ ?_
      · simp
      · exact ⟨h1, Or.inr ⟨hsa, h2, h3⟩⟩

/-- `loadNextPage_issues_iff` restated against a state whose pending list
is known to coincide with a reference state (used at trigger sites, where
the moved state differs from the pre-key state only in non-pending
fields). -/
theorem loadNextPage_issues_iff' (t s : ViewerState) (hp : t.pending = s.pending) :
    s.pending.length < (loadNextPage t).pending.length ↔
      (t.loading = false ∧
        ((t.searchActive = true ∧ t.searchHasMore = true ∧ t.searchCursor ≠ "") ∨
         (t.searchActive = false ∧ t.hasNextPage = true ∧ t.currentCursor ≠ ""))) := by
  rw [← hp]
  exact loadNextPage_issues_iff t

/-! ## C2 — appending a fetched page -/

/-- C2: when a background page fetch completes successfully (browse or
search stream), the returned page is appended to the entry sequence — the
old sequence is an unchanged initial segment of the new one, the length
grows by exactly the page size, `hasMore`/`total`/`cursor` of the
governing stream are overwritten with the response's values, and the
selection is unchanged. -/
theorem c2_append_page (s : ViewerState) (newEntries : List Entry) (more : Bool)
    (total : Option Int) (cursor : String) :
    (let s2 := applyBrowseMore (FetchResult.ok newEntries more total cursor) s
     s2.allEntries.take s.allEntries.length = s.allEntries ∧
     s2.allEntries.length = s.allEntries.length + newEntries.length ∧
     s2.hasNextPage = more ∧ s2.totalAvailable = total ∧
     s2.currentCursor = cursor ∧ s2.currentIdx = s.currentIdx) ∧
    (let s3 := applySearchMore (FetchResult.ok newEntries more total cursor) s
     s3.allEntries.take s.allEntries.length = s.allEntries ∧
     s3.allEntries.length = s.allEntries.length + newEntries.length ∧
     s3.searchHasMore = more ∧ s3.searchTotal = total ∧
     s3.searchCursor = cursor ∧ s3.currentIdx = s.currentIdx) := by
  constructor
  · refine ⟨?_, ?_, rfl, rfl, rfl, rfl⟩
    · show (s.allEntries ++ newEntries).take s.allEntries.length = s.allEntries
      simp
    · show (s.allEntries ++ newEntries).length = _
      simp
  · refine ⟨?_, ?_, rfl, rfl, rfl, rfl⟩
    · show (s.allEntries ++ newEntries).take s.allEntries.length = s.allEntries
      simp
    · show (s.allEntries ++ newEntries).length = _
      simp

/-! ## C5 — date-filter reload -/

/-- C5 counterexample: a reachable state obtained by a successful
date-filter reload (sequence replaced by the new first page, selection 0,
expanded flags and vertical offsets cleared) in which the
horizontal-scroll map still contains the pre-reload entry for index 1 —
the claim that every per-entry view state including horizontal offsets is
cleared is false. -/
theorem c5_counterexample :
    Reachable c5s3 ∧
    c5s3 = completeStep 0
      (Completion.reload (ReloadResult.success [30] true none (some "nc"))) c5s2 ∧
    c5s3.allEntries = [30] ∧ c5s3.currentIdx = 0 ∧
    c5s3.expanded = [] ∧ c5s3.expandedScrollOffset = [] ∧
    mmem c5s3.horizontalScrollOffset 1 = true := by
  refine ⟨?_, rfl, by decide, by decide, by decide, by decide, by decide⟩
  exact Reachable.complete 0 _
    (Reachable.key envH5 (Key.dateFilter "-1h" "") (by decide)
      (Reachable.key envH5 Key.down (by decide)
        (Reachable.init [10, 20] false none "" (by decide))))

/-- C5 (amended): a successful date-filter reload replaces the entry
sequence with the response page, overwrites the pagination state, resets
the selection to 0, clears the expanded flags and the vertical scroll
offsets, clears the active search (flag and query), and records the new
filter bounds — but the horizontal scroll offsets are retained unchanged,
not cleared. -/
theorem c5_amended_reload_success (s : ViewerState) (a b : String)
    (data : List Entry) (hm : Bool) (t : Option Int) (c : Option String) :
    (let s2 := applyReload a b (ReloadResult.success data hm t c) s
     s2.allEntries = data ∧ s2.hasNextPage = hm ∧ s2.totalAvailable = t ∧
     s2.currentCursor = (match c with | some x => x | none => "") ∧
     s2.currentIdx = 0 ∧ s2.expanded = [] ∧ s2.expandedScrollOffset = [] ∧
     s2.searchActive = false ∧ s2.searchQuery = "" ∧
     s2.activeStartTime = a ∧ s2.activeEndTime = b ∧
     s2.horizontalScrollOffset = s.horizontalScrollOffset) :=
  ⟨rfl, rfl, rfl, rfl, rfl, rfl, rfl, rfl, rfl, rfl, rfl, rfl⟩

/-! ## C6 — failures retain all prior state -/

/-- C6: when a background page fetch (browse or search pagination) or a
date-filter reload fails — fetch error, unparseable time spec, request
error, non-2xx status, or decode error — the entire prior viewer state is
retained (entry sequence, selection, view state, search and date-filter
bookkeeping, pagination cursors and flags) and only the status line and
the loading flag change, leaving a later trigger free to retry. -/
theorem c6_failure_retains_state (s : ViewerState) (msg : String) :
    (retainsViewerState s (applyBrowseMore (FetchResult.err msg) s) ∧
     (applyBrowseMore (FetchResult.err msg) s).loading = false) ∧
    (retainsViewerState s (applySearchMore (FetchResult.err msg) s) ∧
     (applySearchMore (FetchResult.err msg) s).loading = false) ∧
    (∀ a b : String,
      (retainsViewerState s (applyReload a b (ReloadResult.invalidStart msg) s) ∧
       (applyReload a b (ReloadResult.invalidStart msg) s).loading = false) ∧
      (retainsViewerState s (applyReload a b (ReloadResult.failedStart msg) s) ∧
       (applyReload a b (ReloadResult.failedStart msg) s).loading = false) ∧
      (retainsViewerState s (applyReload a b (ReloadResult.invalidEnd msg) s) ∧
       (applyReload a b (ReloadResult.invalidEnd msg) s).loading = false) ∧
      (retainsViewerState s (applyReload a b (ReloadResult.failedEnd msg) s) ∧
       (applyReload a b (ReloadResult.failedEnd msg) s).loading = false) ∧
      (retainsViewerState s (applyReload a b (ReloadResult.requestError msg) s) ∧
       (applyReload a b (ReloadResult.requestError msg) s).loading = false) ∧
      (retainsViewerState s (applyReload a b (ReloadResult.httpError msg) s) ∧
       (applyReload a b (ReloadResult.httpError msg) s).loading = false) ∧
      (retainsViewerState s (applyReload a b (ReloadResult.decodeError msg) s) ∧
       (applyReload a b (ReloadResult.decodeError msg) s).loading = false)) := by
  refine ⟨⟨?_, rfl⟩, ⟨?_, rfl⟩, fun a b => ⟨⟨?_, rfl⟩, ⟨?_, rfl⟩, ⟨?_, rfl⟩, ⟨?_, rfl⟩, ⟨?_, rfl⟩, ⟨?_, rfl⟩, ⟨?_, rfl⟩⟩⟩ <;>
    exact ⟨rfl, rfl, rfl, rfl, rfl, rfl, rfl, rfl, rfl, rfl, rfl, rfl, rfl, rfl, rfl, rfl⟩

/-! ## C9 — clearing an active search -/

/-- C9: clearing an active search (Escape while a query is set, or
submitting an empty query, both of which run `performSearch("")`) clears
the active flag and the query and resets the selection to 0, but leaves
the displayed entry sequence and the browse pagination
(cursor/hasMore/total) unchanged — the pre-search browse entries are not
restored. -/
theorem c9_clear_search (s : ViewerState) :
    (let s2 := performSearch "" s
     s2.searchActive = false ∧ s2.searchQuery = "" ∧ s2.currentIdx = 0 ∧
     s2.allEntries = s.allEntries ∧ s2.currentCursor = s.currentCursor ∧
     s2.hasNextPage = s.hasNextPage ∧ s2.totalAvailable = s.totalAvailable ∧
     s2.searchMatches = []) ∧
    (∀ e : KeyEnv, s.searchQuery ≠ "" → keyStep e Key.escape s = performSearch "" s) ∧
    (∀ e : KeyEnv, keyStep e (Key.slashSubmit "") s = performSearch "" s) := by
  refine ⟨?_, ?_, fun e => rfl⟩
  · simp [performSearch]
  · intro e h
    show (if s.searchQuery ≠ "" then performSearch "" s else s) = performSearch "" s
    rw [if_pos h]

/-- C9 witness: at a concrete state with the search "q" active, Escape
runs the clear, the selection resets to 0, and the displayed entries and
browse cursor are untouched. -/
theorem c9_clear_search_witness :
    keyStep envH5 Key.escape c9sW = performSearch "" c9sW ∧
    (performSearch "" c9sW).searchActive = false ∧
    (performSearch "" c9sW).currentIdx = 0 ∧
    (performSearch "" c9sW).allEntries = c9sW.allEntries :=
  ⟨(c9_clear_search c9sW).2.1 envH5 (by decide),
   (c9_clear_search c9sW).1.1, (c9_clear_search c9sW).1.2.2.1,
   (c9_clear_search c9sW).1.2.2.2.1⟩

/-! ## C3 — the viewport window -/

/-- C3 counterexample: a reachable state with a non-empty sequence (two
entries) and `currentIdx = -1` — the trace of `c1s6`: a no-match search
empties the list, Escape keeps the empty list with live browse
pagination, PageDown sets the selection to `len-1 = -1` and triggers a
fetch whose completion appends two entries without clamping, and k leaves
the selection at -1.  With viewport height 5 the code computes the window
`(0, 2)`, which does not contain the selection, so the claim's "for every
state with a non-empty entry sequence … the window always contains
currentIdx" is false; only its size `min(viewportHeight, len)` part
survives. -/
theorem c3_counterexample :
    Reachable c1s6 ∧ c1s6.allEntries ≠ [] ∧
    viewportWindow c1s6.currentIdx 5 (c1s6.allEntries.length : Int) = (0, 2) ∧
    ¬ ((viewportWindow c1s6.currentIdx 5 (c1s6.allEntries.length : Int)).1 ≤
         c1s6.currentIdx ∧
       c1s6.currentIdx <
         (viewportWindow c1s6.currentIdx 5 (c1s6.allEntries.length : Int)).2) := by
  refine ⟨?_, by decide, by decide, by decide⟩
  exact Reachable.key envH5 Key.up (by decide)
    (Reachable.complete 0 (Completion.fetch (FetchResult.ok [1, 2] false none ""))
      (Reachable.key envH5 Key.pageDown (by decide)
        (Reachable.key envH5 Key.escape (by decide)
          (Reachable.complete 0 (Completion.fetch (FetchResult.ok [] false none ""))
            (Reachable.key envH5 (Key.slashSubmit "z") (by decide)
              (Reachable.init [0] true none "c0" (by decide)))))))

/-- C3 (amended): for every selection, every viewport height (≥ 1 after
the terminal clamp) and every sequence length, the window computed by
`renderScreen` — start centered on the selection and clamped at 0, end
clamped at the sequence length with the start re-clamped — lies inside
the sequence and spans exactly `min viewportHeight len` rows; it contains
the selection whenever the selection is in bounds
(`0 ≤ currentIdx < len`), a condition navigation preserves but which
reachable states can violate after a search completion shrinks the
sequence (the counterexample), so containment does not hold for every
state with a non-empty sequence. -/
theorem c3_amended_window (currentIdx viewportHeight len : Int)
    (hh : 1 ≤ viewportHeight) (hlen : 0 ≤ len) :
    ((viewportWindow currentIdx viewportHeight len).2 -
       (viewportWindow currentIdx viewportHeight len).1 = min viewportHeight len ∧
     0 ≤ (viewportWindow currentIdx viewportHeight len).1 ∧
     (viewportWindow currentIdx viewportHeight len).2 ≤ len) ∧
    (0 ≤ currentIdx → currentIdx < len →
      (viewportWindow currentIdx viewportHeight len).1 ≤ currentIdx ∧
      currentIdx < (viewportWindow currentIdx viewportHeight len).2) := by
  simp only [viewportWindow]
  split_ifs <;> simp_all <;> omega

/-- C3 witness: twelve entries, viewport height 5, selection 4 — the
window is rows [2, 7), which has size 5, lies inside the sequence, and
contains the in-bounds selection. -/
theorem c3_amended_window_witness :
    viewportWindow 4 5 12 = (2, 7) ∧
    (((viewportWindow 4 5 12).2 - (viewportWindow 4 5 12).1 = min 5 12 ∧
      0 ≤ (viewportWindow 4 5 12).1 ∧ (viewportWindow 4 5 12).2 ≤ 12) ∧
     ((viewportWindow 4 5 12).1 ≤ 4 ∧ 4 < (viewportWindow 4 5 12).2)) :=
  ⟨by decide,
   ⟨(c3_amended_window 4 5 12 (by decide) (by decide)).1,
    (c3_amended_window 4 5 12 (by decide) (by decide)).2 (by decide) (by decide)⟩⟩

/-! ## C10 — the time-spec resolver -/

/-- Helper: a string of whitespace trims to the empty string. -/
theorem goTrimSpace_of_all_space (v : String) (h : v.data.all isGoSpace = true) :
    goTrimSpace v = "" := by
  unfold goTrimSpace
  have hd : v.data.dropWhile isGoSpace = [] := by
    rw [List.dropWhile_eq_nil_iff]
    intro x hx
    exact List.all_eq_true.mp h x hx
  rw [hd]
  rfl

/-- C10: `parseTimeArg` maps every all-whitespace (or empty) input to the
empty string with no error — so a blank date-filter field imposes no time
bound and cannot fail the filter (`buildDateFilterQuery` with blank fields
returns no bounds and no error) — while any trimmed non-empty input that
is not `"now"`, is rejected by the duration parser when it starts with
`-`, and matches none of the four accepted layouts, yields an error. -/
theorem c10_parseTimeArg :
    (∀ (lib : TimeLib) (v : String), v.data.all isGoSpace = true →
      parseTimeArg lib v = Except.ok "") ∧
    (∀ (lib : TimeLib) (v : String),
      goTrimSpace v ≠ "" →
      goEqualFold (goTrimSpace v) "now" = false →
      (startsWithMinus (goTrimSpace v) = true →
        lib.parseDuration (goTrimSpace v) = none) →
      (∀ layout ∈ goLayouts, lib.parseInLocation layout (goTrimSpace v) = none) →
      ∃ msg, parseTimeArg lib v = Except.error msg) ∧
    (∀ lib : TimeLib, buildDateFilterQuery lib "" "" = Except.ok (none, none)) := by
  refine ⟨?_, ?_, fun lib => rfl⟩
  · intro lib v h
    unfold parseTimeArg
    rw [goTrimSpace_of_all_space v h]
    rfl
  · intro lib v h0 hnow hdur hlay
    unfold parseTimeArg
    rw [if_neg h0, if_neg (by simp [hnow])]
    by_cases hs : startsWithMinus (goTrimSpace v) = true
    · rw [if_pos hs, hdur hs]
      exact ⟨_, rfl⟩
    · rw [if_neg hs]
      have : goLayouts.findSome?
          (fun layout => lib.parseInLocation layout (goTrimSpace v)) = none := by
        rw [List.findSome?_eq_none_iff]
        exact hlay
      rw [this]
      exact ⟨_, rfl⟩

/-- C10 witness: with a library in which every parser fails, a blank
(space) input resolves to the empty string with no error, a non-matching
input `"xyz"` errors, and blank date-filter fields build an unbounded
query. -/
theorem c10_parseTimeArg_witness :
    parseTimeArg lib0 " " = Except.ok "" ∧
    (∃ msg, parseTimeArg lib0 "xyz" = Except.error msg) ∧
    buildDateFilterQuery lib0 "" "" = Except.ok (none, none) :=
  ⟨c10_parseTimeArg.1 lib0 " " (by decide),
   c10_parseTimeArg.2.1 lib0 "xyz" (by decide) (by decide) (by decide) (by decide),
   c10_parseTimeArg.2.2 lib0⟩

/-! ## Field-effect lemmas for navigation and completions -/

theorem moveDown_currentIdx (s : ViewerState) :
    (moveDown s).currentIdx = s.currentIdx + 1 := by
  dsimp only [moveDown]
  split
  · rw [loadNextPage_currentIdx]
  · rfl

theorem moveDown_allEntries (s : ViewerState) :
    (moveDown s).allEntries = s.allEntries := by
  dsimp only [moveDown]
  split
  · rw [loadNextPage_allEntries]
  · rfl

theorem moveDown_expanded (s : ViewerState) :
    (moveDown s).expanded = s.expanded := by
  dsimp only [moveDown]
  split
  · rw [loadNextPage_expanded]
  · rfl

theorem moveDown_expandedScrollOffset (s : ViewerState) :
    (moveDown s).expandedScrollOffset = s.expandedScrollOffset := by
  dsimp only [moveDown]
  split
  · rw [loadNextPage_expandedScrollOffset]
  · rfl

theorem moveUp_currentIdx (s : ViewerState) :
    (moveUp s).currentIdx = s.currentIdx - 1 := rfl

theorem moveUp_allEntries (s : ViewerState) :
    (moveUp s).allEntries = s.allEntries := rfl

theorem moveUp_expanded (s : ViewerState) :
    (moveUp s).expanded = s.expanded := rfl

theorem moveUp_expandedScrollOffset (s : ViewerState) :
    (moveUp s).expandedScrollOffset = s.expandedScrollOffset := rfl

theorem performSearch_expanded (q : String) (s : ViewerState) :
    (performSearch q s).expanded = s.expanded := by
  unfold performSearch
  split <;> rfl

theorem performSearch_expandedScrollOffset (q : String) (s : ViewerState) :
    (performSearch q s).expandedScrollOffset = s.expandedScrollOffset := by
  unfold performSearch
  split <;> rfl

theorem applySearchFirst_expanded (q : String) (r : FetchResult) (s : ViewerState) :
    (applySearchFirst q r s).expanded = s.expanded := by
  cases r with
  | err msg => rfl
  | ok results hm t c =>
    dsimp only [applySearchFirst]
    split <;> rfl

theorem applySearchFirst_expandedScrollOffset (q : String) (r : FetchResult)
    (s : ViewerState) :
    (applySearchFirst q r s).expandedScrollOffset = s.expandedScrollOffset := by
  cases r with
  | err msg => rfl
  | ok results hm t c =>
    dsimp only [applySearchFirst]
    split <;> rfl

theorem applySearchMore_expanded (r : FetchResult) (s : ViewerState) :
    (applySearchMore r s).expanded = s.expanded := by
  unfold applySearchMore
  rcases r with msg | ⟨results, hm, t, c⟩ <;> rfl

theorem applySearchMore_expandedScrollOffset (r : FetchResult) (s : ViewerState) :
    (applySearchMore r s).expandedScrollOffset = s.expandedScrollOffset := by
  unfold applySearchMore
  rcases r with msg | ⟨results, hm, t, c⟩ <;> rfl

theorem applyBrowseMore_expanded (r : FetchResult) (s : ViewerState) :
    (applyBrowseMore r s).expanded = s.expanded := by
  unfold applyBrowseMore
  rcases r with msg | ⟨results, hm, t, c⟩ <;> rfl

theorem applyBrowseMore_expandedScrollOffset (r : FetchResult) (s : ViewerState) :
    (applyBrowseMore r s).expandedScrollOffset = s.expandedScrollOffset := by
  unfold applyBrowseMore
  rcases r with msg | ⟨results, hm, t, c⟩ <;> rfl

/-! ## C1 — the selection bound -/

/-- C1 counterexample: a reachable trace on which a navigation action (k)
leaves `currentIdx = -1` while two entries are loaded.  A search with no
matches empties the sequence; Escape clears the search but keeps the empty
list and the stale browse pagination; PageDown on the empty sequence sets
the selection to `len-1 = -1` and auto-triggers a browse fetch whose
completion appends a non-empty page without clamping the selection; the
subsequent k press keeps `-1` (its guard `currentIdx > 0` fails).  The
claimed invariant `0 ≤ currentIdx < len(entries)` after any navigation
action on a reachable state is false, and no mutation of the sequence
re-clamps the bound. -/
theorem c1_counterexample :
    Reachable c1s6 ∧
    c1s6 = keyStep envH5 Key.up c1s5 ∧ Key.up.isNav = true ∧
    c1s6.allEntries ≠ [] ∧
    ¬ (0 ≤ c1s6.currentIdx ∧ c1s6.currentIdx < (c1s6.allEntries.length : Int)) := by
  refine ⟨?_, rfl, rfl, by decide, by decide⟩
  exact Reachable.key envH5 Key.up (by decide)
    (Reachable.complete 0 (Completion.fetch (FetchResult.ok [1, 2] false none ""))
      (Reachable.key envH5 Key.pageDown (by decide)
        (Reachable.key envH5 Key.escape (by decide)
          (Reachable.complete 0 (Completion.fetch (FetchResult.ok [] false none ""))
            (Reachable.key envH5 (Key.slashSubmit "z") (by decide)
              (Reachable.init [0] true none "c0" (by decide)))))))

/-- C1 (amended): every key-driven navigation action preserves the
selection bound — from a state with `0 ≤ currentIdx < len(entries)` (a
non-empty sequence) any of j/k, the arrows, d/u, PageDown/PageUp, g/G,
Home/End, n/N leaves the sequence unchanged and the bound intact — and the
selection is reset to 0 by search submit, search clear, and a successful
date-filter reload.  (Mutations of the sequence themselves never clamp:
appends keep `currentIdx` as is, and a search completion replaces the
sequence without touching it, which is what the counterexample exploits.) -/
theorem c1_amended :
    (∀ (s : ViewerState) (e : KeyEnv) (k : Key), EnvOk e → k.isNav = true →
      selectionIn s →
      selectionIn (keyStep e k s) ∧ (keyStep e k s).allEntries = s.allEntries) ∧
    (∀ (q : String) (s : ViewerState), (performSearch q s).currentIdx = 0) ∧
    (∀ (s : ViewerState) (a b : String) (data : List Entry) (hm : Bool)
      (t : Option Int) (c : Option String),
      (applyReload a b (ReloadResult.success data hm t c) s).currentIdx = 0) := by
  refine ⟨?_, ?_, ?_⟩
  · intro s e k he hk hsel
    obtain ⟨he1, -, -, -⟩ := he
    obtain ⟨h0, h1⟩ := hsel
    cases k with
    | escape => simp [Key.isNav] at hk
    | slashSubmit q => simp [Key.isNav] at hk
    | dateFilter a b => simp [Key.isNav] at hk
    | toggle => simp [Key.isNav] at hk
    | nextMatch =>
      dsimp only [keyStep]
      split_ifs with hc
      · obtain ⟨-, hc2⟩ := hc
        refine ⟨?_, rfl⟩
        simp only [selectionIn]
        omega
      · exact ⟨⟨h0, h1⟩, rfl⟩
    | prevMatch =>
      dsimp only [keyStep]
      split_ifs with hc
      · obtain ⟨-, hc2⟩ := hc
        refine ⟨?_, rfl⟩
        simp only [selectionIn]
        omega
      · exact ⟨⟨h0, h1⟩, rfl⟩
    | down =>
      dsimp only [keyStep]
      split_ifs <;>
        first
        | exact ⟨⟨h0, h1⟩, rfl⟩
        | (refine ⟨?_, moveDown_allEntries s⟩
           simp only [selectionIn, moveDown_currentIdx, moveDown_allEntries]
           omega)
    | up =>
      dsimp only [keyStep]
      split_ifs <;>
        first
        | exact ⟨⟨h0, h1⟩, rfl⟩
        | (refine ⟨?_, moveUp_allEntries s⟩
           simp only [selectionIn, moveUp_currentIdx, moveUp_allEntries]
           omega)
    | right => exact ⟨⟨h0, h1⟩, rfl⟩
    | left => exact ⟨⟨h0, h1⟩, rfl⟩
    | pageDown =>
      dsimp only [keyStep]
      split_ifs <;>
        first
        | exact ⟨⟨h0, h1⟩, rfl⟩
        | (refine ⟨?_, by rw [loadNextPage_allEntries]⟩
           simp only [selectionIn, loadNextPage_currentIdx, loadNextPage_allEntries]
           omega)
        | (refine ⟨?_, rfl⟩
           simp only [selectionIn]
           omega)
    | pageUp =>
      dsimp only [keyStep]
      split_ifs <;>
        first
        | exact ⟨⟨h0, h1⟩, rfl⟩
        | (refine ⟨?_, rfl⟩
           simp only [selectionIn]
           omega)
    | gotoTop =>
      refine ⟨?_, rfl⟩
      show (0 : Int) ≤ 0 ∧ (0 : Int) < (s.allEntries.length : Int)
      omega
    | gotoBottom =>
      refine ⟨?_, rfl⟩
      show (0 : Int) ≤ (s.allEntries.length : Int) - 1 ∧
        (s.allEntries.length : Int) - 1 < (s.allEntries.length : Int)
      omega
  · intro q s
    unfold performSearch
    split <;> rfl
  · intro s a b data hm t c
    rfl

/-- C1 witness: at a concrete in-bounds state, the j/down navigation
action preserves the bound and the sequence. -/
theorem c1_amended_witness :
    EnvOk envH5 ∧ Key.down.isNav = true ∧ selectionIn c8s0 ∧
    (selectionIn (keyStep envH5 Key.down c8s0) ∧
     (keyStep envH5 Key.down c8s0).allEntries = c8s0.allEntries) :=
  ⟨by decide, rfl, ⟨by decide, by decide⟩,
   c1_amended.1 c8s0 envH5 Key.down (by decide) rfl ⟨by decide, by decide⟩⟩

/-! ## C4 — the auto-load trigger -/

/-- C4 counterexample: a reachable browse-mode state with 40 loaded
entries, selection 3, more available, cursor set and no fetch in flight,
on which d (PageDown with viewport height 20) moves the selection to 23
and issues a background fetch although the selection is not within the
trailing window of 5 entries of the end — the claimed "iff … within 5"
characterization of the trigger is false. -/
theorem c4_counterexample :
    Reachable c4s3 ∧ c4s4 = keyStep envH20 Key.pageDown c4s3 ∧
    c4s3.loading = false ∧ c4s3.hasNextPage = true ∧ c4s3.currentCursor ≠ "" ∧
    c4s3.searchActive = false ∧
    c4s3.pending.length < c4s4.pending.length ∧
    ¬ (c4s4.currentIdx ≥ (c4s4.allEntries.length : Int) - 5) := by
  refine ⟨?_, rfl, by decide, by decide, by decide, by decide, by decide, by decide⟩
  exact Reachable.key envH20 Key.down (by decide)
    (Reachable.key envH20 Key.down (by decide)
      (Reachable.key envH20 Key.down (by decide)
        (Reachable.init (List.range 40) true none "c" (by decide))))

/-- C4 (amended): `loadNextPage` issues a fetch iff no fetch is in flight,
the governing stream's hasMore flag is true and its cursor is non-empty —
in particular it is a no-op while `loading` is set, so no second
concurrent fetch is ever issued by the trigger path.  The trigger sites
differ from the claim: j/down-arrow (on a collapsed row) additionally
requires the selection after the move to be within 5 of the end and the
browse `hasNextPage` flag to be true (even in search mode), whereas
d/PageDown requires the moved selection to be within `viewportHeight` of
the end — not 5 — gated on the governing stream's hasMore flag. -/
theorem c4_amended :
    (∀ s : ViewerState, s.loading = true → loadNextPage s = s) ∧
    (∀ s : ViewerState,
      s.pending.length < (loadNextPage s).pending.length ↔
        (s.loading = false ∧
          ((s.searchActive = true ∧ s.searchHasMore = true ∧ s.searchCursor ≠ "") ∨
           (s.searchActive = false ∧ s.hasNextPage = true ∧ s.currentCursor ≠ "")))) ∧
    (∀ (s : ViewerState) (e : KeyEnv),
      mget false s.expanded s.currentIdx = false →
      (s.pending.length < (keyStep e Key.down s).pending.length ↔
        (s.currentIdx < (s.allEntries.length : Int) - 1 ∧
         s.currentIdx + 1 ≥ (s.allEntries.length : Int) - 5 ∧
         s.hasNextPage = true ∧ s.loading = false ∧
         ((s.searchActive = true ∧ s.searchHasMore = true ∧ s.searchCursor ≠ "") ∨
          (s.searchActive = false ∧ s.currentCursor ≠ ""))))) ∧
    (∀ (s : ViewerState) (e : KeyEnv),
      (let len := (s.allEntries.length : Int)
       let newIdx := if s.currentIdx + e.height ≥ len then len - 1
                     else s.currentIdx + e.height
       (s.pending.length < (keyStep e Key.pageDown s).pending.length ↔
         (newIdx ≠ s.currentIdx ∧ newIdx ≥ len - e.height ∧ s.loading = false ∧
          ((s.searchActive = true ∧ s.searchHasMore = true ∧ s.searchCursor ≠ "") ∨
           (s.searchActive = false ∧ s.hasNextPage = true ∧ s.currentCursor ≠ "")))))) := by
  refine ⟨loadNextPage_of_loading, loadNextPage_issues_iff, ?_, ?_⟩
  · intro s e hexp
    dsimp only [keyStep]
    rw [if_neg (by simp [hexp])]
    split_ifs with hm
    · dsimp only [moveDown]
      split_ifs with ht
      all_goals
        first
        | (refine Iff.trans (loadNextPage_issues_iff' _ _ rfl) ?_
           dsimp only
           constructor
           · rintro ⟨hld, ⟨hsa, hsm, hc⟩ | ⟨hsa, hnp, hc⟩⟩
             · exact ⟨hm, ht.1, ht.2.1, hld, Or.inl ⟨hsa, hsm, hc⟩⟩
             · exact ⟨hm, ht.1, ht.2.1, hld, Or.inr ⟨hsa, hc⟩⟩
           · rintro ⟨-, -, hnp, hld, ⟨hsa, hsm, hc⟩ | ⟨hsa, hc⟩⟩
             · exact ⟨hld, Or.inl ⟨hsa, hsm, hc⟩⟩
             · exact ⟨hld, Or.inr ⟨hsa, hnp, hc⟩⟩)
        | (dsimp only
           refine iff_of_false (by omega) ?_
           rintro ⟨-, hge, hnp, hld, -⟩
           exact ht ⟨hge, hnp, hld⟩)
    · refine iff_of_false (by omega) (fun hr => absurd hr.1 hm)
  · intro s e
    dsimp only [keyStep]
    split_ifs with h1 h2 h3 h4 h5 h6 h7 h8 h9
    · refine Iff.trans (loadNextPage_issues_iff' _ _ rfl) ?_
      dsimp only
      tauto
    · dsimp only
      refine iff_of_false (by omega) ?_
      rintro ⟨-, hge, hld, ⟨-, hsm2, -⟩ | ⟨hsa2, -, -⟩⟩
      · exact h4 ⟨hge, hsm2, hld⟩
      · exact absurd h3 (by simp [hsa2])
    · refine Iff.trans (loadNextPage_issues_iff' _ _ rfl) ?_
      dsimp only
      tauto
    · dsimp only
      refine iff_of_false (by omega) ?_
      rintro ⟨-, hge, hld, ⟨hsa2, -, -⟩ | ⟨-, hnp2, -⟩⟩
      · exact h3 hsa2
      · exact h5 ⟨hge, hnp2, hld⟩
    · refine iff_of_false (by omega) (fun hr => h2 hr.1)
    · refine Iff.trans (loadNextPage_issues_iff' _ _ rfl) ?_
      dsimp only
      tauto
    · dsimp only
      refine iff_of_false (by omega) ?_
      rintro ⟨-, hge, hld, ⟨-, hsm2, -⟩ | ⟨hsa2, -, -⟩⟩
      · exact h8 ⟨hge, hsm2, hld⟩
      · exact absurd h7 (by simp [hsa2])
    · refine Iff.trans (loadNextPage_issues_iff' _ _ rfl) ?_
      dsimp only
      tauto
    · dsimp only
      refine iff_of_false (by omega) ?_
      rintro ⟨-, hge, hld, ⟨hsa2, -, -⟩ | ⟨-, hnp2, -⟩⟩
      · exact h7 hsa2
      · exact h9 ⟨hge, hnp2, hld⟩
    · refine iff_of_false (by omega) (fun hr => h6 hr.1)

/-- C4 witness: at the concrete state `c4s4` (fetch in flight)
`loadNextPage` is a no-op, and at `c4s3` the j-trigger characterization
holds with the selection still outside the trailing window. -/
theorem c4_amended_witness :
    c4s4.loading = true ∧ loadNextPage c4s4 = c4s4 ∧
    mget false c4s3.expanded c4s3.currentIdx = false ∧
    (c4s3.pending.length < (keyStep envH20 Key.down c4s3).pending.length ↔
      (c4s3.currentIdx < (c4s3.allEntries.length : Int) - 1 ∧
       c4s3.currentIdx + 1 ≥ (c4s3.allEntries.length : Int) - 5 ∧
       c4s3.hasNextPage = true ∧ c4s3.loading = false ∧
       ((c4s3.searchActive = true ∧ c4s3.searchHasMore = true ∧
         c4s3.searchCursor ≠ "") ∨
        (c4s3.searchActive = false ∧ c4s3.currentCursor ≠ "")))) :=
  ⟨by decide, c4_amended.1 c4s4 (by decide), by decide,
   c4_amended.2.2.1 c4s3 envH20 (by decide)⟩

/-! ## C7 — view state of collapsed entries -/

/-- Transport of the vertical-scroll invariant along steps that change
neither the expanded map nor the vertical scroll map. -/
theorem vScrollInv_congr (s t : ViewerState)
    (he : t.expanded = s.expanded)
    (hv : t.expandedScrollOffset = s.expandedScrollOffset)
    (h : vScrollInv s) : vScrollInv t := by
  intro i hi
  rw [hv] at hi
  rw [he]
  exact h i hi

theorem vScrollInv_keyStep (s : ViewerState) (e : KeyEnv) (k : Key)
    (h : vScrollInv s) : vScrollInv (keyStep e k s) := by
  cases k with
  | escape =>
    dsimp only [keyStep]
    split_ifs with hq
    · exact vScrollInv_congr s _ (performSearch_expanded "" s)
        (performSearch_expandedScrollOffset "" s) h
    · exact h
  | slashSubmit q =>
    exact vScrollInv_congr s _ (performSearch_expanded q s)
      (performSearch_expandedScrollOffset q s) h
  | dateFilter a b => exact vScrollInv_congr s _ rfl rfl h
  | nextMatch =>
    refine vScrollInv_congr s _ ?_ ?_ h <;> (dsimp only [keyStep]; split_ifs <;> rfl)
  | prevMatch =>
    refine vScrollInv_congr s _ ?_ ?_ h <;> (dsimp only [keyStep]; split_ifs <;> rfl)
  | right => exact vScrollInv_congr s _ rfl rfl h
  | left => exact vScrollInv_congr s _ rfl rfl h
  | pageDown =>
    refine vScrollInv_congr s _ ?_ ?_ h
    · dsimp only [keyStep]
      split_ifs <;> first | rfl | rw [loadNextPage_expanded]
    · dsimp only [keyStep]
      split_ifs <;> first | rfl | rw [loadNextPage_expandedScrollOffset]
  | pageUp =>
    refine vScrollInv_congr s _ ?_ ?_ h <;> (dsimp only [keyStep]; split_ifs <;> rfl)
  | gotoTop => exact vScrollInv_congr s _ rfl rfl h
  | gotoBottom => exact vScrollInv_congr s _ rfl rfl h
  | down =>
    dsimp only [keyStep]
    split_ifs with hex hsc hmv hmv2
    · intro i hi
      dsimp only at hi ⊢
      by_cases hik : i = s.currentIdx
      · subst hik
        exact hex
      · rw [mmem_mset_ne _ _ _ _ hik] at hi
        exact h i hi
    · exact vScrollInv_congr s _ (moveDown_expanded s) (moveDown_expandedScrollOffset s) h
    · exact h
    · exact vScrollInv_congr s _ (moveDown_expanded s) (moveDown_expandedScrollOffset s) h
    · exact h
  | up =>
    dsimp only [keyStep]
    split_ifs with hex hsc hmv hmv2
    · intro i hi
      dsimp only at hi ⊢
      by_cases hik : i = s.currentIdx
      · subst hik
        exact hex
      · rw [mmem_mset_ne _ _ _ _ hik] at hi
        exact h i hi
    · exact vScrollInv_congr s _ (moveUp_expanded s) (moveUp_expandedScrollOffset s) h
    · exact h
    · exact vScrollInv_congr s _ (moveUp_expanded s) (moveUp_expandedScrollOffset s) h
    · exact h
  | toggle =>
    dsimp only [keyStep]
    split_ifs with hcol
    · intro i hi
      dsimp only at hi ⊢
      by_cases hik : i = s.currentIdx
      · subst hik
        rw [mmem_mdel_self] at hi
        exact absurd hi Bool.false_ne_true
      · rw [mmem_mdel_ne _ _ _ hik] at hi
        rw [mget_mset_ne _ _ _ _ _ hik]
        exact h i hi
    · intro i hi
      dsimp only at hi ⊢
      by_cases hik : i = s.currentIdx
      · subst hik
        rw [mget_mset_self]
        cases hm2 : mget false s.expanded s.currentIdx with
        | false => rfl
        | true =>
          rw [hm2] at hcol
          exact absurd rfl hcol
      · rw [mmem_mset_ne _ _ _ _ hik] at hi
        rw [mget_mset_ne _ _ _ _ _ hik]
        exact h i hi

theorem vScrollInv_applyReload (a b : String) (r : ReloadResult) (s : ViewerState)
    (h : vScrollInv s) : vScrollInv (applyReload a b r s) := by
  cases r with
  | success data hm t c =>
    intro i hi
    exact absurd hi Bool.false_ne_true
  | invalidStart msg => exact vScrollInv_congr s _ rfl rfl h
  | failedStart msg => exact vScrollInv_congr s _ rfl rfl h
  | invalidEnd msg => exact vScrollInv_congr s _ rfl rfl h
  | failedEnd msg => exact vScrollInv_congr s _ rfl rfl h
  | requestError msg => exact vScrollInv_congr s _ rfl rfl h
  | httpError st => exact vScrollInv_congr s _ rfl rfl h
  | decodeError msg => exact vScrollInv_congr s _ rfl rfl h

theorem vScrollInv_completeStep (i : Nat) (c : Completion) (s : ViewerState)
    (h : vScrollInv s) : vScrollInv (completeStep i c s) := by
  unfold completeStep
  split
  · exact vScrollInv_congr s _ ((applySearchFirst_expanded _ _ _).trans rfl)
      ((applySearchFirst_expandedScrollOffset _ _ _).trans rfl) h
  · exact vScrollInv_congr s _ ((applySearchMore_expanded _ _).trans rfl)
      ((applySearchMore_expandedScrollOffset _ _).trans rfl) h
  · exact vScrollInv_congr s _ ((applyBrowseMore_expanded _ _).trans rfl)
      ((applyBrowseMore_expandedScrollOffset _ _).trans rfl) h
  · exact vScrollInv_applyReload _ _ _ _ (vScrollInv_congr s _ rfl rfl h)
  · exact h

theorem vScrollInv_fireClear (i : Nat) (s : ViewerState)
    (h : vScrollInv s) : vScrollInv (fireClear i s) := by
  dsimp only [fireClear]
  split_ifs
  · exact vScrollInv_congr s _ rfl rfl h
  · exact h

theorem vScrollInv_renderStep (i jl : Int) (s : ViewerState)
    (h : vScrollInv s) : vScrollInv (renderStep i jl s) := by
  dsimp only [renderStep]
  split_ifs with hex h1 h2 h3 <;>
    first
    | exact h
    | (intro j hj
       dsimp only at hj ⊢
       by_cases hji : j = i
       · subst hji
         exact hex
       · rw [mmem_mset_ne _ _ _ _ hji] at hj
         exact h j hj)

/-- The vertical-scroll invariant holds in every reachable state. -/
theorem reachable_vScrollInv (s : ViewerState) (h : Reachable s) : vScrollInv s := by
  induction h with
  | init entries hm t c hne =>
    intro i hi
    exact absurd hi Bool.false_ne_true
  | key e k he hr ih => exact vScrollInv_keyStep _ e k ih
  | complete i c hr ih => exact vScrollInv_completeStep i c _ ih
  | clearTask i hr ih => exact vScrollInv_fireClear i _ ih
  | render i jl hj hr ih => exact vScrollInv_renderStep i jl _ ih

/-- C7 counterexample: after one j press from the initial state, index 1
is collapsed (`expanded[1] = false`) yet present in the horizontal
scroll-state map — the claimed invariant that a collapsed index appears in
neither scroll map, and that scroll state is only ever created for
expanded entries, is false for the horizontal map. -/
theorem c7_counterexample :
    Reachable c7s1 ∧ mget false c7s1.expanded 1 = false ∧
    mmem c7s1.horizontalScrollOffset 1 = true := by
  refine ⟨?_, by decide, by decide⟩
  exact Reachable.key envH5 Key.down (by decide)
    (Reachable.init [0, 1] false none "" (by decide))

/-- C7 (amended): in every reachable state the VERTICAL scroll map only
holds expanded indices (a collapsed index never appears in
`expandedScrollOffset`), the toggle on collapse removes the entry's
vertical scroll state, and the toggle on expand sets its vertical scroll
offset to 0; the horizontal scroll map is not covered by the invariant —
it is keyed to the selection, seeded on navigation for collapsed rows, and
not cleaned on collapse. -/
theorem c7_amended :
    (∀ s : ViewerState, Reachable s →
      ∀ i : Int, mmem s.expandedScrollOffset i = true →
        mget false s.expanded i = true) ∧
    (∀ (s : ViewerState) (e : KeyEnv),
      (mget false s.expanded s.currentIdx = true →
        mget false (keyStep e Key.toggle s).expanded s.currentIdx = false ∧
        mmem (keyStep e Key.toggle s).expandedScrollOffset s.currentIdx = false) ∧
      (mget false s.expanded s.currentIdx = false →
        mget false (keyStep e Key.toggle s).expanded s.currentIdx = true ∧
        mget 0 (keyStep e Key.toggle s).expandedScrollOffset s.currentIdx = 0)) := by
  refine ⟨reachable_vScrollInv, ?_⟩
  intro s e
  constructor
  · intro hx
    constructor
    · simp [keyStep, hx, mget_mset_self]
    · simp [keyStep, hx, mmem_mdel_self]
  · intro hx
    constructor
    · simp [keyStep, hx, mget_mset_self]
    · simp [keyStep, hx, mget_mset_self]

/-- C7 witness: toggling the (collapsed) first entry expands it, its
vertical scroll offset is seeded, and the reachable-state invariant
applied at that state confirms the index is expanded. -/
theorem c7_amended_witness :
    mmem c7sT.expandedScrollOffset 0 = true ∧ mget false c7sT.expanded 0 = true :=
  ⟨by decide,
   c7_amended.1 c7sT
     (Reachable.key envH5 Key.toggle (by decide)
       (Reachable.init [0] false none "" (by decide))) 0 (by decide)⟩

/-! ## C8 — the delayed status clear -/

/-- C8 counterexample: a reachable trace in which a clear task scheduled
for the status "Loaded 1 new entries" fires after a newer status
("Searching for 'q'...") has replaced it, and blanks that newer status —
the claimed still-my-own equality check before blanking does not exist in
the code, so a newer status set before the timer fires IS prematurely
cleared. -/
theorem c8_counterexample :
    Reachable c8s4 ∧ c8s4 = fireClear 0 c8s3 ∧
    c8s3.pendingClears = ["Loaded 1 new entries"] ∧
    c8s3.status ≠ "Loaded 1 new entries" ∧
    c8s3.status ≠ "" ∧
    c8s4.status = "" := by
  refine ⟨?_, rfl, by decide, by decide, by decide, by decide⟩
  exact Reachable.clearTask 0
    (Reachable.key envH5 (Key.slashSubmit "q") (by decide)
      (Reachable.complete 0 (Completion.fetch (FetchResult.ok [2] false none ""))
        (Reachable.key envH5 Key.down (by decide)
          (Reachable.init [0, 1] true none "c" (by decide)))))

/-- C8 (amended): a delayed status-clearing task blanks the status line
unconditionally when it fires — it performs no comparison with the
message it was scheduled for, so whatever status is current at firing
time (including a newer one) is cleared. -/
theorem c8_amended_clear_unconditional (s : ViewerState) (i : Nat)
    (h : i < s.pendingClears.length) :
    (fireClear i s).status = "" ∧
    (fireClear i s).pendingClears = s.pendingClears.eraseIdx i := by
  unfold fireClear
  rw [if_pos h]
  exact ⟨rfl, rfl⟩

/-- C8 witness: the pending clear of `c8s3` (scheduled for the "Loaded 1
new entries" status) fires and blanks the current status. -/
theorem c8_amended_clear_witness :
    0 < c8s3.pendingClears.length ∧
    (fireClear 0 c8s3).status = "" ∧
    (fireClear 0 c8s3).pendingClears = c8s3.pendingClears.eraseIdx 0 :=
  ⟨by decide, (c8_amended_clear_unconditional c8s3 0 (by decide)).1,
   (c8_amended_clear_unconditional c8s3 0 (by decide)).2⟩
